import Mathlib

/-!
Verification of the Cinemalytics ETL pipeline (src/main.py) against its
natural-language specification.

The program is a linear pandas pipeline: load and flatten a JSON movie
dataset, visualize, derive five relational tables, write them to SQLite.
This file gives a shallow embedding of that pipeline:

* a raw movie record is a structure with the fields the JSON schema names;
* the flattened table is modelled twice, once as a typed list of rows
  (for claims about the loader) and once as an untyped dataframe with
  named columns (for claims about prepare_database_tables, whose failures
  are pandas column lookup errors);
* pandas operations (explode, fillna, drop_duplicates, reset_index, merge,
  column selection) are translated operation by operation, with the pandas
  error behavior (KeyError on a missing column, left-merge suffix rules,
  keep-first deduplication that retains the original index labels);
* fallible steps return Except; the orchestrator main is modelled as a
  function from the outcome of the load stage to a run summary recording
  which stages ran, whether the database was written, what escaped and
  what was swallowed.

Machine integers: the year is an Int (pandas int64 never overflows here);
the rating is a rational, standing for a float that is only ever stored
and compared, never computed with.
-/

/-- A scalar cell value of the dataframe. The null constructor stands for
pandas NaN (missing data). -/
inductive Val where
  | str (s : String)
  | int (n : Int)
  | rat (q : Rat)
  | null
deriving DecidableEq, Repr

/-- A JSON field that the code may explode: either a scalar string or a
list of strings, as the spec allows for genre and cast. -/
inductive JField where
  | scalar (s : String)
  | list (xs : List String)
deriving DecidableEq, Repr

/-- One raw movie record of the top_movies list. The year is optional so
that records missing the year field can be expressed; the other fields are
present in every record the claims concern. -/
structure RawMovie where
  title : String
  year : Option Int
  rating : Rat
  synopsis : String
  director : String
  genre : JField
  cast : JField
deriving DecidableEq, Repr

/-- pandas Series.explode: a list becomes one row per element, an empty
list becomes a single null row, a scalar stays one row. -/
def explodeField : JField → List Val
  | .scalar s => [.str s]
  | .list [] => [.null]
  | .list (x :: xs) => (x :: xs).map Val.str

/-- df.fillna(0) on one cell: null becomes the integer 0. -/
def fillCell : Val → Val
  | .null => .int 0
  | v => v

/-- Whether the year column of the normalized frame has float dtype:
pandas promotes the column to float64 when any record lacks the year. -/
def yearColFloat (ms : List RawMovie) : Bool := ms.any (fun m => m.year.isNone)

/-- The decade string computed by line 15 of main.py,
(df[yearcol] floordiv 10 * 10).astype(str) + s, before fillna runs.
On an integer column a present year renders like 1990s; on a float column
(some year missing) a present year renders like 1990.0s and a missing year
renders str(NaN) + s = nans. -/
def decadeStr (floatYear : Bool) : Option Int → String
  | some y => toString (Int.fdiv y 10 * 10) ++ (if floatYear then ".0s" else "s")
  | none => "nans"

/-- One flattened row after the whole of load_and_preprocess_data:
exploded, main_genre and decade added, nulls filled, year coerced to
int64 (missing year becomes 0). -/
structure Row where
  title : String
  year : Int
  rating : Rat
  synopsis : String
  director : String
  genre : Val
  cast : Val
  main_genre : Val
  decade : String
deriving DecidableEq, Repr

/-- The flattened rows one raw record contributes:
df.explode(genrecol).explode(castcol) is the genre-major cross product;
main_genre is computed from the already exploded genre column (line 14),
so it is the row's own genre cell, not the first element of the original
list; decade comes from the unfilled year; fillna(0) then replaces null
genre and cast cells (and a missing year) with 0. -/
def flattenMovie (floatYear : Bool) (m : RawMovie) : List Row :=
  (explodeField m.genre).flatMap (fun g =>
    (explodeField m.cast).map (fun c =>
      { title := m.title
        year := m.year.getD 0
        rating := m.rating
        synopsis := m.synopsis
        director := m.director
        genre := fillCell g
        cast := fillCell c
        main_genre := fillCell g
        decade := decadeStr floatYear m.year }))

/-- The whole flattened table of load_and_preprocess_data, one block of
rows per raw record in order. -/
def flattenRows (ms : List RawMovie) : List Row :=
  ms.flatMap (flattenMovie (yearColFloat ms))

/-- Column names. -/
abbrev Col := String

/-- The Python exceptions the pipeline can raise. loadError stands for
the LoadError class the spec names; the code of main.py defines no such
class, and the constructor exists so that its absence from every outcome
can be stated. -/
inductive PyErr where
  | keyError (c : String)
  | valueError
  | fileNotFound
  | loadError
deriving DecidableEq, Repr

/-- An untyped dataframe: named columns, an index of integer labels, and
rows of cells. Well-formed frames have index and rows of equal length and
every row as long as cols. -/
structure DFrame where
  cols : List Col
  index : List Int
  rows : List (List Val)
deriving DecidableEq, Repr

/-- The integers 0, 1, ..., n-1, a fresh pandas RangeIndex. -/
def rangeInts (n : Nat) : List Int := (List.range n).map Int.ofNat

/-- The cell of a row under a column name (first match, null if absent). -/
def lookupCol (cols : List Col) (row : List Val) (c : Col) : Val :=
  ((cols.zip row).lookup c).getD Val.null

/-- df[[c1, ..., ck]]: column projection, KeyError on the first column
that is absent. Keeps the index. -/
def selectCols (cs : List Col) (df : DFrame) : Except PyErr DFrame :=
  match cs.find? (fun c => !(df.cols.contains c)) with
  | some c => .error (.keyError c)
  | none => .ok ⟨cs, df.index, df.rows.map (fun r => cs.map (lookupCol df.cols r))⟩

/-- Keep the first element of each key class, walking left to right with
the set of keys already kept. -/
def dedupByKeyAux {α β : Type} [DecidableEq β] (f : α → β) (seen : List β) :
    List α → List α
  | [] => []
  | a :: rest =>
    if f a ∈ seen then dedupByKeyAux f seen rest
    else a :: dedupByKeyAux f (f a :: seen) rest

/-- Keep the first element of each key class, dropping later repeats. -/
def dedupByKey {α β : Type} [DecidableEq β] (f : α → β) (l : List α) : List α :=
  dedupByKeyAux f [] l

/-- df.drop_duplicates(): keep the first row of each distinct row value,
retaining the original index labels of the kept rows. -/
def drop_duplicates (df : DFrame) : DFrame :=
  let pairs := dedupByKey (fun p => p.2) (df.index.zip df.rows)
  ⟨df.cols, pairs.map (fun p => p.1), pairs.map (fun p => p.2)⟩

/-- df.reset_index(): the old index labels become a first column named
index, and the index becomes a fresh RangeIndex. -/
def reset_index (df : DFrame) : DFrame :=
  ⟨"index" :: df.cols, rangeInts df.rows.length,
    (df.index.zip df.rows).map (fun p => Val.int p.1 :: p.2)⟩

/-- df.rename(columns = ...) for a single column name. -/
def rename_col (old new : Col) (df : DFrame) : DFrame :=
  ⟨df.cols.map (fun c => if c = old then new else c), df.index, df.rows⟩

/-- df[c].unique(): the distinct values of a column in first-seen order,
KeyError if the column is absent. -/
def unique_col (df : DFrame) (c : Col) : Except PyErr (List Val) :=
  if df.cols.contains c then
    .ok (dedupByKey id (df.rows.map (fun r => lookupCol df.cols r c)))
  else .error (.keyError c)

/-- pd.DataFrame(values, columns=[name]): a one-column frame with a fresh
RangeIndex. -/
def frame_of_vals (name : Col) (vals : List Val) : DFrame :=
  ⟨[name], rangeInts vals.length, vals.map (fun v => [v])⟩

/-- left.merge(right, left_on, right_on, how=left). KeyError when a join
key is missing from its frame. A column name occurring in both frames is
suffixed _x on the left and _y on the right; a left row without a match
keeps null right cells; the result has a fresh RangeIndex. -/
def merge (left right : DFrame) (leftOn rightOn : Col) : Except PyErr DFrame :=
  if left.cols.contains leftOn then
    if right.cols.contains rightOn then
      let cols :=
        left.cols.map (fun c => if right.cols.contains c then c ++ "_x" else c) ++
        right.cols.map (fun c => if left.cols.contains c then c ++ "_y" else c)
      let newRows := left.rows.flatMap (fun lr =>
        let key := lookupCol left.cols lr leftOn
        let hits := right.rows.filter (fun rr => decide (lookupCol right.cols rr rightOn = key))
        if hits.isEmpty then [lr ++ right.cols.map (fun _ => Val.null)]
        else hits.map (fun rr => lr ++ rr))
      .ok ⟨cols, rangeInts newRows.length, newRows⟩
    else .error (.keyError rightOn)
  else .error (.keyError leftOn)

/-- The flattened frame as an untyped dataframe: the columns json_normalize
produces in record key order, then the two derived columns, with a fresh
RangeIndex (df.reset_index(drop=True) at the end of the loader). -/
def flatCols : List Col :=
  ["title", "year", "rating", "synopsis", "director", "genre", "cast",
   "main_genre", "decade"]

/-- A flattened row as a dataframe row, in flatCols order. -/
def Row.toVals (r : Row) : List Val :=
  [.str r.title, .int r.year, .rat r.rating, .str r.synopsis, .str r.director,
   r.genre, r.cast, r.main_genre, .str r.decade]

/-- The dataframe load_and_preprocess_data returns for a document whose
top_movies list is ms (when it returns at all). -/
def dfOfFlat (ms : List RawMovie) : DFrame :=
  ⟨flatCols, rangeInts (flattenRows ms).length, (flattenRows ms).map Row.toVals⟩

/-- The shapes of input the code distinguishes at the file boundary. The
file system and JSON parser are outside the program, so the input is
modelled by the case pandas ends up in: no file at the path, a file that
is not valid JSON, a JSON document without the top_movies key, or a JSON
document whose top_movies list is given. -/
inductive FileInput where
  | missing
  | malformed
  | jsonNoTopMovies
  | jsonTopMovies (ms : List RawMovie)
deriving DecidableEq, Repr

/-- load_and_preprocess_data (main.py lines 8-25). pd.read_json raises
FileNotFoundError for a missing file and ValueError for malformed JSON;
json_data[topkey] raises KeyError when the key is absent; with an empty
top_movies list json_normalize yields a frame with no columns and the
explode raises KeyError on the genre column; when every record lacks the
year field there is no year column and line 15 raises KeyError. The
except block prints and re-raises the same exception unchanged. -/
def load_and_preprocess_data (f : FileInput) : Except PyErr DFrame :=
  match f with
  | .missing => .error .fileNotFound
  | .malformed => .error .valueError
  | .jsonNoTopMovies => .error (.keyError "top_movies")
  | .jsonTopMovies ms =>
    if ms.isEmpty then .error (.keyError "genre")
    else if ms.all (fun m => m.year.isNone) then .error (.keyError "year")
    else .ok (dfOfFlat ms)

/-- create_visualizations (main.py lines 28-47), keeping only its data
accesses: groupby(decade)[rating].mean(), value_counts of director and
cast, and the bar chart of title against decade. Each access raises
KeyError if its column is absent; the rendering itself has no effect on
the data. The except block prints and re-raises unchanged. -/
def create_visualizations (df : DFrame) : Except PyErr Unit :=
  if df.cols.contains "decade" then
    if df.cols.contains "rating" then
      if df.cols.contains "director" then
        if df.cols.contains "cast" then
          if df.cols.contains "title" then .ok ()
          else .error (.keyError "title")
        else .error (.keyError "cast")
      else .error (.keyError "director")
    else .error (.keyError "rating")
  else .error (.keyError "decade")

/-- movies_table (main.py lines 53-58):
df[[title, year, rating, synopsis]].drop_duplicates().reset_index()
.rename(index to id). reset_index after drop_duplicates turns the
surviving original positional labels into the id column. -/
def movies_table (df : DFrame) : Except PyErr DFrame :=
  (selectCols ["title", "year", "rating", "synopsis"] df).map
    (fun t => rename_col "index" "id" (reset_index (drop_duplicates t)))

/-- directors_table (main.py lines 60-64):
pd.DataFrame(df[director].unique(), columns=[name]).reset_index()
.rename(index to id). -/
def directors_table (df : DFrame) : Except PyErr DFrame :=
  (unique_col df "director").map
    (fun vs => rename_col "index" "id" (reset_index (frame_of_vals "name" vs)))

/-- genres_table (main.py lines 66-70), as directors_table over genre. -/
def genres_table (df : DFrame) : Except PyErr DFrame :=
  (unique_col df "genre").map
    (fun vs => rename_col "index" "id" (reset_index (frame_of_vals "name" vs)))

/-- movie_director (main.py lines 72-79) given the directors table:
df[[title]].reset_index().merge(directors, left_on=director,
right_on=name, how=left)[[index, id_y]].rename(...).drop_duplicates().
The projected frame has only the index and title columns, so the merge
key director is always absent. -/
def movie_director_from (dirs : DFrame) (df : DFrame) : Except PyErr DFrame := do
  let t ← selectCols ["title"] df
  let m ← merge (reset_index t) dirs "director" "name"
  let s ← selectCols ["index", "id_y"] m
  pure (drop_duplicates (rename_col "id_y" "director_id" (rename_col "index" "movie_id" s)))

/-- movie_genre (main.py lines 81-88) given the genres table:
df[[title, genre]].reset_index().merge(genres, left_on=genre,
right_on=name, how=left)[[index, id_y]].rename(...).drop_duplicates().
Here the merge key exists, but no column name collides between the two
frames, so the merge output has a plain id column and no id_y. -/
def movie_genre_from (gens : DFrame) (df : DFrame) : Except PyErr DFrame := do
  let t ← selectCols ["title", "genre"] df
  let m ← merge (reset_index t) gens "genre" "name"
  let s ← selectCols ["index", "id_y"] m
  pure (drop_duplicates (rename_col "id_y" "genre_id" (rename_col "index" "movie_id" s)))

/-- The movie_genre construction as prepare_database_tables performs it,
building its genres table from the same frame. -/
def movie_genre_table (df : DFrame) : Except PyErr DFrame := do
  let gens ← genres_table df
  movie_genre_from gens df

/-- prepare_database_tables (main.py lines 50-94): the five constructions
in source order; the first one to raise aborts the function (the except
block prints and re-raises unchanged). -/
def prepare_database_tables (df : DFrame) :
    Except PyErr (DFrame × DFrame × DFrame × DFrame × DFrame) := do
  let movies ← movies_table df
  let dirs ← directors_table df
  let gens ← genres_table df
  let md ← movie_director_from dirs df
  let mg ← movie_genre_from gens df
  pure (movies, dirs, gens, md, mg)

/-- The stages main sequences. -/
inductive Stage where
  | load
  | visualize
  | buildTables
  | connect
  | exportDb
deriving DecidableEq, Repr, BEq

/-- What one run of main did: the stages that were invoked, whether the
database was written, the exception that escaped main (if any), and the
exception main caught and only printed (if any). -/
structure RunResult where
  stagesRun : List Stage
  dbWritten : Bool
  escaped : Option PyErr
  swallowed : Option PyErr
deriving DecidableEq, Repr

/-- The body of main (main.py lines 153-174) as a function of the load
outcome (named mainRun since Lean reserves main for executables):
load, create_visualizations, prepare_database_tables,
setup_database_engine (pure schema construction, cannot fail) and
export_to_database in order, inside one try block whose except clause
prints the error and does not re-raise. -/
def mainRun (loadRes : Except PyErr DFrame) : RunResult :=
  match loadRes with
  | .error e => ⟨[.load], false, none, some e⟩
  | .ok df =>
    match create_visualizations df with
    | .error e => ⟨[.load, .visualize], false, none, some e⟩
    | .ok _ =>
      match prepare_database_tables df with
      | .error e => ⟨[.load, .visualize, .buildTables], false, none, some e⟩
      | .ok _ =>
        ⟨[.load, .visualize, .buildTables, .connect, .exportDb], true, none, none⟩

/-- A run of the program from a file input, as __main__ does. -/
def runProgram (f : FileInput) : RunResult := mainRun (load_and_preprocess_data f)

/-- The single-movie document of the spec scenario: title A, year 1999,
rating 8.0, synopsis s, director D, genres Drama and Crime, cast X and Y. -/
def sampleDoc : List RawMovie :=
  [{ title := "A", year := some 1999, rating := 8, synopsis := "s",
     director := "D", genre := .list ["Drama", "Crime"], cast := .list ["X", "Y"] }]

/-- A default row for positional access. -/
def dummyRow : Row :=
  { title := "", year := 0, rating := 0, synopsis := "", director := "",
    genre := .null, cast := .null, main_genre := .null, decade := "" }

theorem except_bind_error {ε α β : Type} (e : ε) (f : α → Except ε β) :
    (Except.error e >>= f) = Except.error e := rfl

theorem except_bind_ok {ε α β : Type} (a : α) (f : α → Except ε β) :
    (Except.ok a >>= f) = f a := rfl

/-- A successful column projection has exactly the asked columns. -/
theorem select_ok_cols {cs : List Col} {df : DFrame} {t : DFrame}
    (h : selectCols cs df = .ok t) : t.cols = cs := by
  unfold selectCols at h
  cases hf : cs.find? (fun c => !(df.cols.contains c)) with
  | some c => rw [hf] at h; cases h
  | none => rw [hf] at h; cases h; rfl

/-- The movie_director construction always raises: the frame it merges is
the projection to index and title, which has no director column. -/
theorem movie_director_from_fails (dirs df : DFrame) :
    (movie_director_from dirs df).isOk = false := by
  cases hs : selectCols ["title"] df with
  | error e => simp [movie_director_from, hs, except_bind_error, Except.isOk, Except.toBool]
  | ok t =>
    have hc : t.cols = ["title"] := select_ok_cols hs
    have hcols : (reset_index t).cols = ["index", "title"] := by
      simp [reset_index, hc]
    have hm : merge (reset_index t) dirs "director" "name" =
        .error (.keyError "director") := by
      simp only [merge, hcols]
      rfl
    simp [movie_director_from, hs, hm, except_bind_ok, except_bind_error, Except.isOk, Except.toBool]

/-- prepare_database_tables can never return: whichever of the earlier
constructions survive, the movie_director step raises. -/
theorem prepare_database_tables_fails (df : DFrame) :
    (prepare_database_tables df).isOk = false := by
  unfold prepare_database_tables
  cases h1 : movies_table df with
  | error e => simp [h1, except_bind_error, Except.isOk, Except.toBool]
  | ok movies =>
    cases h2 : directors_table df with
    | error e => simp [h1, h2, except_bind_error, except_bind_ok, Except.isOk, Except.toBool]
    | ok dirs =>
      cases h3 : genres_table df with
      | error e => simp [h1, h2, h3, except_bind_error, except_bind_ok, Except.isOk, Except.toBool]
      | ok gens =>
        cases h4 : movie_director_from dirs df with
        | error e =>
          simp [h1, h2, h3, h4, except_bind_error, except_bind_ok, Except.isOk, Except.toBool]
        | ok md =>
          have := movie_director_from_fails dirs df
          rw [h4] at this
          simp [Except.isOk, Except.toBool] at this

deriving instance DecidableEq for Except

/-- Claim C2: for every input dataframe, prepare_database_tables raises
rather than returning the five tables; the movie_director construction
merges on the absent director key, and on any loader-produced frame the
movie_genre construction gets past its merge only to select the id_y
column the merge never created. -/
theorem C2_prepare_always_raises :
    (∀ df : DFrame, (prepare_database_tables df).isOk = false) ∧
    (∀ ms : List RawMovie,
      movie_genre_table (dfOfFlat ms) = .error (.keyError "id_y")) :=
  ⟨prepare_database_tables_fails, fun _ => rfl⟩

/-- Claim C1, counterexample: on the spec scenario document the flattened
rows do not all carry main_genre Drama, and prepare_database_tables does
not return tables at all. -/
theorem C1_scenario_claim_false :
    decide ((flattenRows sampleDoc).map Row.main_genre =
      List.replicate 4 (Val.str "Drama")) = false ∧
    (prepare_database_tables (dfOfFlat sampleDoc)).isOk = false := by decide

/-- Claim C1, amended: the scenario document flattens to 4 rows, all with
decade 1990s; main_genre follows each row's own exploded genre, giving
Drama, Drama, Crime, Crime; the movies, directors and genres tables as
constructed inside prepare_database_tables have 1, 1 and 2 rows, but the
function then raises KeyError on director, so no tables are returned. -/
theorem C1_scenario_actual :
    (flattenRows sampleDoc).length = 4 ∧
    (flattenRows sampleDoc).map Row.decade = ["1990s", "1990s", "1990s", "1990s"] ∧
    (flattenRows sampleDoc).map Row.main_genre =
      [Val.str "Drama", Val.str "Drama", Val.str "Crime", Val.str "Crime"] ∧
    (movies_table (dfOfFlat sampleDoc)).map (fun t => t.rows.length) = .ok 1 ∧
    (directors_table (dfOfFlat sampleDoc)).map (fun t => t.rows.length) = .ok 1 ∧
    (genres_table (dfOfFlat sampleDoc)).map (fun t => t.rows.length) = .ok 2 ∧
    prepare_database_tables (dfOfFlat sampleDoc) = .error (.keyError "director") := by
  decide

/-- Claim C6, counterexample: on the scenario input a component does fail
and main logs it, but nothing escapes main, so the failure does not
propagate out as an unhandled exception. -/
theorem C6_counterexample_swallowed :
    (runProgram (FileInput.jsonTopMovies sampleDoc)).swallowed =
      some (PyErr.keyError "director") ∧
    (runProgram (FileInput.jsonTopMovies sampleDoc)).escaped = none := by decide

/-- Claim C6, amended: the components re-raise into main, but the except
clause of main only prints: for every load outcome some component failure
is caught and swallowed (prepare_database_tables can never succeed), no
exception escapes main, and the database is never written. -/
theorem C6_main_swallows_all_failures :
    ∀ loadRes : Except PyErr DFrame,
      (mainRun loadRes).escaped = none ∧
      (mainRun loadRes).swallowed.isSome = true ∧
      (mainRun loadRes).dbWritten = false := by
  intro loadRes
  cases loadRes with
  | error e => simp [mainRun]
  | ok df =>
    cases hv : create_visualizations df with
    | error e => simp [mainRun, hv]
    | ok u =>
      cases hp : prepare_database_tables df with
      | error e => simp [mainRun, hv, hp]
      | ok t =>
        have := prepare_database_tables_fails df
        rw [hp] at this
        simp [Except.isOk, Except.toBool] at this

/-- Claim C7, counterexample: a missing input file raises
FileNotFoundError, which is not the LoadError the spec names (no LoadError
class exists in main.py). -/
theorem C7_counterexample_missing_file :
    load_and_preprocess_data FileInput.missing = .error PyErr.fileNotFound ∧
    decide (PyErr.fileNotFound = PyErr.loadError) = false := by decide

/-- Claim C7, amended: load_and_preprocess_data only prints and re-raises
the original exception: FileNotFoundError for a missing file, ValueError
for malformed JSON, KeyError for a document without top_movies; it never
raises a LoadError, no such class being defined. -/
theorem C7_load_reraises_builtin_exceptions :
    load_and_preprocess_data FileInput.missing = .error PyErr.fileNotFound ∧
    load_and_preprocess_data FileInput.malformed = .error PyErr.valueError ∧
    load_and_preprocess_data FileInput.jsonNoTopMovies =
      .error (PyErr.keyError "top_movies") ∧
    ∀ (f : FileInput) (e : PyErr),
      load_and_preprocess_data f = .error e → e ≠ PyErr.loadError := by
  refine ⟨rfl, rfl, rfl, ?_⟩
  intro f e h
  cases f with
  | missing => simp [load_and_preprocess_data] at h; subst h; decide
  | malformed => simp [load_and_preprocess_data] at h; subst h; decide
  | jsonNoTopMovies => simp [load_and_preprocess_data] at h; subst h; decide
  | jsonTopMovies ms =>
    simp only [load_and_preprocess_data] at h
    split at h
    · simp at h; subst h; decide
    · split at h
      · simp at h; subst h; decide
      · cases h

/-- A dataframe with no columns, as the visualizer would receive from an
upstream frame lacking every expected column. -/
def emptyFrame : DFrame := ⟨[], [], []⟩

/-- Claim C8: when create_visualizations raises, main stops there: the
table build, the engine setup and the export are never invoked and the
database is not written. -/
theorem C8_viz_failure_stops_run :
    ∀ (df : DFrame) (e : PyErr), create_visualizations df = .error e →
      (mainRun (Except.ok df)).stagesRun = [Stage.load, Stage.visualize] ∧
      (mainRun (Except.ok df)).stagesRun.contains Stage.buildTables = false ∧
      (mainRun (Except.ok df)).stagesRun.contains Stage.connect = false ∧
      (mainRun (Except.ok df)).stagesRun.contains Stage.exportDb = false ∧
      (mainRun (Except.ok df)).dbWritten = false := by
  intro df e h
  have hm : mainRun (Except.ok df) = ⟨[.load, .visualize], false, none, some e⟩ := by
    simp [mainRun, h]
  rw [hm]
  exact ⟨rfl, rfl, rfl, rfl, rfl⟩

/-- Claim C8, witness: the theorem applied to a frame on which the
visualizer does fail. -/
theorem C8_viz_failure_stops_run_witness :
    (mainRun (Except.ok emptyFrame)).stagesRun = [Stage.load, Stage.visualize] ∧
    (mainRun (Except.ok emptyFrame)).stagesRun.contains Stage.buildTables = false ∧
    (mainRun (Except.ok emptyFrame)).stagesRun.contains Stage.connect = false ∧
    (mainRun (Except.ok emptyFrame)).stagesRun.contains Stage.exportDb = false ∧
    (mainRun (Except.ok emptyFrame)).dbWritten = false :=
  C8_viz_failure_stops_run emptyFrame (PyErr.keyError "decade") rfl

/-- How many rows explode makes of a field: list elements, but at least
one row (an empty list leaves a single null row, a scalar stays put). -/
def explodedWeight : JField → Nat
  | .scalar _ => 1
  | .list [] => 1
  | .list (x :: xs) => (x :: xs).length

/-- The row-count formula as the spec states it, len(genre) * len(cast)
per movie, reading len as Python len: the length of a list, the number of
characters of a scalar string. -/
def claimedRowCount (ms : List RawMovie) : Nat :=
  (ms.map (fun m => pythonLen m.genre * pythonLen m.cast)).sum
where pythonLen : JField → Nat
  | .scalar s => s.length
  | .list xs => xs.length

/-- The row count the explosion actually produces. -/
def crossCount (ms : List RawMovie) : Nat :=
  (ms.map (fun m => explodedWeight m.genre * explodedWeight m.cast)).sum

/-- A field that is a nonempty list, the shape on which the spec's
len-product formula and the explosion agree. -/
def nonemptyList : JField → Bool
  | .list (_ :: _) => true
  | _ => false

theorem length_explodeField (g : JField) :
    (explodeField g).length = explodedWeight g := by
  cases g with
  | scalar s => rfl
  | list xs => cases xs <;> simp [explodeField, explodedWeight]

theorem length_flatMap_const {α β : Type} (l : List α) (f : α → List β) (k : Nat)
    (h : ∀ a, (f a).length = k) : (l.flatMap f).length = l.length * k := by
  induction l with
  | nil => simp
  | cons a t ih => simp [List.flatMap_cons, ih, h]; ring

theorem length_flattenMovie (b : Bool) (m : RawMovie) :
    (flattenMovie b m).length = explodedWeight m.genre * explodedWeight m.cast := by
  rw [flattenMovie, length_flatMap_const _ _ (explodedWeight m.cast)
    (fun g => by simp [length_explodeField]), length_explodeField]

theorem length_flattenBlocks (b : Bool) (ms : List RawMovie) :
    (ms.flatMap (flattenMovie b)).length = crossCount ms := by
  induction ms with
  | nil => rfl
  | cons m t ih =>
    simp only [List.flatMap_cons, List.length_append, length_flattenMovie,
      crossCount, List.map_cons, List.sum_cons]
    simpa [crossCount] using ih

/-- Claim C3, counterexample: a movie with an empty genre list and one
cast member yields 1 flattened row (explode keeps one null row), while
the len-product formula predicts 0. -/
def emptyGenreDoc : List RawMovie :=
  [{ title := "E", year := some 2000, rating := 5, synopsis := "s",
     director := "D", genre := .list [], cast := .list ["X"] }]

theorem C3_counterexample_empty_list :
    (flattenRows emptyGenreDoc).length = 1 ∧
    claimedRowCount emptyGenreDoc = 0 ∧
    decide ((flattenRows emptyGenreDoc).length = claimedRowCount emptyGenreDoc) = false := by
  decide

/-- Claim C3, amended: the flattened row count is the sum over movies of
max(1, len(genre)) * max(1, len(cast)) (a scalar counting as one); it
equals the spec's len(genre) * len(cast) sum exactly when every genre and
cast field is a nonempty list. -/
theorem C3_rowcount_cross_product :
    ∀ ms : List RawMovie,
      (dfOfFlat ms).rows.length = crossCount ms ∧
      (ms.all (fun m => nonemptyList m.genre && nonemptyList m.cast) = true →
        (dfOfFlat ms).rows.length = claimedRowCount ms) := by
  intro ms
  have hlen : (dfOfFlat ms).rows.length = crossCount ms := by
    simp only [dfOfFlat, List.length_map, flattenRows]
    exact length_flattenBlocks _ ms
  refine ⟨hlen, fun hgood => ?_⟩
  rw [hlen]
  clear hlen
  induction ms with
  | nil => rfl
  | cons m t ih =>
    rw [List.all_cons, Bool.and_eq_true, Bool.and_eq_true] at hgood
    obtain ⟨⟨hg, hc⟩, ht⟩ := hgood
    have weq : ∀ g : JField, nonemptyList g = true →
        explodedWeight g = claimedRowCount.pythonLen g := by
      intro g h
      cases g with
      | scalar s => simp [nonemptyList] at h
      | list xs => cases xs with
        | nil => simp [nonemptyList] at h
        | cons x t2 => rfl
    simp only [crossCount, claimedRowCount, List.map_cons, List.sum_cons] at *
    rw [weq m.genre hg, weq m.cast hc, ih ht]

/-- Claim C4, counterexample: in the scenario document the third
flattened row carries main_genre Crime, not the first genre Drama of its
originating record. -/
theorem C4_counterexample_third_row :
    ((flattenRows sampleDoc).getD 2 dummyRow).main_genre = Val.str "Crime" ∧
    ((flattenRows sampleDoc).getD 2 dummyRow).genre = Val.str "Crime" ∧
    decide (Val.str "Crime" = Val.str "Drama") = false := by decide

/-- Claim C4, amended: main_genre is computed from the genre column after
the explosion (line 14 follows line 13), so every flattened row's
main_genre equals that row's own genre cell; rows exploded from one movie
agree on main_genre only when their exploded genre values agree. -/
theorem C4_main_genre_is_row_genre :
    ∀ (ms : List RawMovie) (r : Row), r ∈ flattenRows ms →
      r.main_genre = r.genre := by
  intro ms r hr
  simp only [flattenRows, List.mem_flatMap] at hr
  obtain ⟨m, hm, hr⟩ := hr
  simp only [flattenMovie, List.mem_flatMap, List.mem_map] at hr
  obtain ⟨g, hg, c, hc, rfl⟩ := hr
  rfl

/-- Claim C4, witness: the amended theorem at the scenario's first row. -/
theorem C4_main_genre_witness :
    ((flattenRows sampleDoc).getD 0 dummyRow).main_genre =
      ((flattenRows sampleDoc).getD 0 dummyRow).genre :=
  C4_main_genre_is_row_genre sampleDoc
    ((flattenRows sampleDoc).getD 0 dummyRow) (by decide)

/-- A record without the year field. -/
def noYearMovie : RawMovie :=
  { title := "B", year := none, rating := 7, synopsis := "t",
    director := "E", genre := .list ["H"], cast := .list ["Y"] }

/-- A document in which one record has a year and another lacks it, so
the year column carries float dtype. -/
def mixedYearDoc : List RawMovie :=
  [{ title := "A", year := some 1994, rating := 8, synopsis := "s",
     director := "D", genre := .list ["G"], cast := .list ["X"] },
   noYearMovie]

/-- Claim C9, counterexample: with a record lacking the year elsewhere in
the document, the row for year 1994 renders its decade from the float
column as 1990.0s, not as the claimed str(1990) + s. -/
theorem C9_counterexample_float_column :
    ((flattenRows mixedYearDoc).getD 0 dummyRow).year = 1994 ∧
    ((flattenRows mixedYearDoc).getD 0 dummyRow).decade = "1990.0s" ∧
    decide (("1990.0s" : String) = toString (Int.fdiv 1994 10 * 10) ++ "s") = false := by
  decide

/-- Claim C9, amended: when every record carries a year, the column stays
integer and every flattened row's decade is str(year floordiv 10 * 10)
plus s; when any record lacks the year the column is promoted to float
and present years render with a trailing .0 (for example 1990.0s). -/
theorem C9_decade_formula_on_int_column :
    ∀ ms : List RawMovie, ms.all (fun m => m.year.isSome) = true →
      ∀ r : Row, r ∈ flattenRows ms →
        r.decade = toString (Int.fdiv r.year 10 * 10) ++ "s" := by
  intro ms hall r hr
  have hfloat : yearColFloat ms = false := by
    rw [yearColFloat, List.any_eq_false]
    intro m hm
    rw [List.all_eq_true] at hall
    have := hall m hm
    cases hy : m.year with
    | some y => simp
    | none => rw [hy] at this; simp at this
  simp only [flattenRows, List.mem_flatMap] at hr
  obtain ⟨m, hm, hr⟩ := hr
  rw [List.all_eq_true] at hall
  have hsome := hall m hm
  cases hy : m.year with
  | none => rw [hy] at hsome; simp at hsome
  | some y =>
    simp only [flattenMovie, List.mem_flatMap, List.mem_map] at hr
    obtain ⟨g, hg, c, hc, rfl⟩ := hr
    simp [hy, hfloat, decadeStr]

/-- A document with the three example years of the spec, all present. -/
def exampleYearsDoc : List RawMovie :=
  [{ title := "A1", year := some 1994, rating := 1, synopsis := "x",
     director := "D", genre := .list ["G"], cast := .list ["P"] },
   { title := "A2", year := some 2005, rating := 2, synopsis := "y",
     director := "D", genre := .list ["G"], cast := .list ["P"] },
   { title := "A3", year := some 1990, rating := 3, synopsis := "z",
     director := "D", genre := .list ["G"], cast := .list ["P"] }]

/-- Claim C9, witness: the amended formula applied to the first row of
the all-years-present example document. -/
theorem C9_decade_formula_witness :
    ((flattenRows exampleYearsDoc).getD 0 dummyRow).decade =
      toString (Int.fdiv ((flattenRows exampleYearsDoc).getD 0 dummyRow).year 10 * 10)
        ++ "s" :=
  C9_decade_formula_on_int_column exampleYearsDoc (by decide)
    ((flattenRows exampleYearsDoc).getD 0 dummyRow) (by decide)

/-- Claim C10: a record missing its year contributes rows that sit in the
flattened table with year 0 (fillna(0) then astype int64) and with decade
the string nans (str of NaN plus s), not 0s, the decade column being
computed before fillna. -/
theorem C10_missing_year_rows :
    ∀ (ms : List RawMovie) (m : RawMovie), m ∈ ms → m.year = none →
      ∀ r : Row, r ∈ flattenMovie (yearColFloat ms) m →
        r ∈ flattenRows ms ∧ r.year = 0 ∧ r.decade = "nans" := by
  intro ms m hm hy r hr
  refine ⟨?_, ?_⟩
  · rw [flattenRows, List.mem_flatMap]
    exact ⟨m, hm, hr⟩
  · simp only [flattenMovie, List.mem_flatMap, List.mem_map] at hr
    obtain ⟨g, hg, c, hc, rfl⟩ := hr
    simp [hy, decadeStr]

/-- Claim C10, witness: the record without a year in the mixed document
yields a first row with year 0 and decade nans. -/
theorem C10_missing_year_witness :
    ((flattenMovie (yearColFloat mixedYearDoc) noYearMovie).getD 0 dummyRow) ∈
      flattenRows mixedYearDoc ∧
    ((flattenMovie (yearColFloat mixedYearDoc) noYearMovie).getD 0 dummyRow).year = 0 ∧
    ((flattenMovie (yearColFloat mixedYearDoc) noYearMovie).getD 0 dummyRow).decade =
      "nans" :=
  C10_missing_year_rows mixedYearDoc noYearMovie (by decide) rfl
    ((flattenMovie (yearColFloat mixedYearDoc) noYearMovie).getD 0 dummyRow) (by decide)

theorem dedupByKeyAux_subset {α β : Type} [DecidableEq β] (f : α → β) :
    ∀ (l : List α) (seen : List β) (x : α),
      x ∈ dedupByKeyAux f seen l → x ∈ l := by
  intro l
  induction l with
  | nil => intro seen x hx; simp [dedupByKeyAux] at hx
  | cons a t ih =>
    intro seen x hx
    rw [dedupByKeyAux] at hx
    by_cases hin : f a ∈ seen
    · rw [if_pos hin] at hx
      exact List.mem_cons_of_mem a (ih seen x hx)
    · rw [if_neg hin] at hx
      rcases List.mem_cons.mp hx with h | h
      · exact h ▸ List.mem_cons_self a t
      · exact List.mem_cons_of_mem a (ih _ x h)

theorem dedupByKeyAux_nodup {α β : Type} [DecidableEq β] (f : α → β) :
    ∀ (l : List α) (seen : List β),
      ((dedupByKeyAux f seen l).map f).Nodup ∧
      ∀ b ∈ seen, b ∉ (dedupByKeyAux f seen l).map f := by
  intro l
  induction l with
  | nil => intro seen; simp [dedupByKeyAux]
  | cons a t ih =>
    intro seen
    rw [dedupByKeyAux]
    by_cases hin : f a ∈ seen
    · rw [if_pos hin]
      exact ih seen
    · rw [if_neg hin]
      obtain ⟨hnd, hfresh⟩ := ih (f a :: seen)
      refine ⟨?_, ?_⟩
      · rw [List.map_cons, List.nodup_cons]
        exact ⟨hfresh (f a) (List.mem_cons_self _ _), hnd⟩
      · intro b hb
        rw [List.map_cons, List.mem_cons]
        rintro (rfl | h)
        · exact hin hb
        · exact hfresh b (List.mem_cons_of_mem _ hb) h

theorem dedupByKeyAux_complete {α β : Type} [DecidableEq β] (f : α → β) :
    ∀ (l : List α) (seen : List β) (y : α), y ∈ l → f y ∉ seen →
      ∃ x, x ∈ dedupByKeyAux f seen l ∧ f x = f y := by
  intro l
  induction l with
  | nil => intro seen y hy; simp at hy
  | cons a t ih =>
    intro seen y hy hfresh
    rw [dedupByKeyAux]
    rcases List.mem_cons.mp hy with rfl | hyt
    · rw [if_neg hfresh]
      exact ⟨y, List.mem_cons_self _ _, rfl⟩
    · by_cases hin : f a ∈ seen
      · rw [if_pos hin]
        exact ih seen y hyt hfresh
      · rw [if_neg hin]
        by_cases hfy : f y = f a
        · exact ⟨a, List.mem_cons_self _ _, hfy.symm⟩
        · have hfresh2 : f y ∉ f a :: seen := by
            rw [List.mem_cons]
            rintro (h | h)
            · exact hfy h
            · exact hfresh h
          obtain ⟨x, hx, hfx⟩ := ih (f a :: seen) y hyt hfresh2
          exact ⟨x, List.mem_cons_of_mem a hx, hfx⟩

theorem dedupByKeyAux_first {α β : Type} [DecidableEq β] (f : α → β) :
    ∀ (l : List α) (seen : List β) (x : α), x ∈ dedupByKeyAux f seen l →
      f x ∉ seen ∧ l.find? (fun y => decide (f y = f x)) = some x := by
  intro l
  induction l with
  | nil => intro seen x hx; simp [dedupByKeyAux] at hx
  | cons a t ih =>
    intro seen x hx
    rw [dedupByKeyAux] at hx
    by_cases hin : f a ∈ seen
    · rw [if_pos hin] at hx
      obtain ⟨hfresh, hfind⟩ := ih seen x hx
      have hne : f a ≠ f x := by
        rintro h
        exact hfresh (h ▸ hin)
      refine ⟨hfresh, ?_⟩
      rw [List.find?_cons_of_neg, hfind]
      simp [hne]
    · rw [if_neg hin] at hx
      rcases List.mem_cons.mp hx with rfl | hxt
      · refine ⟨hin, ?_⟩
        rw [List.find?_cons_of_pos]
        simp
      · obtain ⟨hfresh, hfind⟩ := ih (f a :: seen) x hxt
        rw [List.mem_cons] at hfresh
        push_neg at hfresh
        obtain ⟨hne, hnotseen⟩ := hfresh
        refine ⟨hnotseen, ?_⟩
        rw [List.find?_cons_of_neg, hfind]
        simp only [decide_eq_true_eq]
        exact fun h => hne h.symm

/-- The list paired with its positions as integer labels, starting at k:
the shape of a RangeIndex zipped with the rows it labels. -/
def enumFrom {α : Type} (k : Nat) : List α → List (Int × α)
  | [] => []
  | a :: t => (Int.ofNat k, a) :: enumFrom (k + 1) t

theorem range_map_zip_eq_enumFrom {α : Type} :
    ∀ (l : List α) (k : Nat),
      ((List.range' k l.length).map Int.ofNat).zip l = enumFrom k l := by
  intro l
  induction l with
  | nil => intro k; rfl
  | cons a t ih =>
    intro k
    rw [List.length_cons, List.range'_succ, List.map_cons, List.zip_cons_cons,
      enumFrom, ih]

theorem rangeInts_zip_eq_enumFrom {α : Type} (l : List α) :
    (rangeInts l.length).zip l = enumFrom 0 l := by
  rw [rangeInts, List.range_eq_range', range_map_zip_eq_enumFrom]

theorem zip_map_fst_snd {α β : Type} :
    ∀ l : List (α × β), (l.map Prod.fst).zip (l.map Prod.snd) = l := by
  intro l
  induction l with
  | nil => rfl
  | cons p t ih => rw [List.map_cons, List.map_cons, List.zip_cons_cons, ih]

theorem mem_enumFrom {α : Type} :
    ∀ (l : List α) (k : Nat) (y : α), y ∈ l → ∃ i : Int, (i, y) ∈ enumFrom k l := by
  intro l
  induction l with
  | nil => intro k y hy; simp at hy
  | cons a t ih =>
    intro k y hy
    rcases List.mem_cons.mp hy with rfl | hyt
    · exact ⟨Int.ofNat k, List.mem_cons_self _ _⟩
    · obtain ⟨i, hi⟩ := ih (k + 1) y hyt
      exact ⟨i, List.mem_cons_of_mem _ hi⟩

/-- What a successful find? over an enumerated list means: the found pair
carries the integer label of the first position holding the value. -/
theorem enumFrom_find?_spec {α : Type} [DecidableEq α] :
    ∀ (l : List α) (k : Nat) (p : Int × α) (v : α),
      (enumFrom k l).find? (fun q => decide (q.2 = v)) = some p →
      p.2 = v ∧ ∃ n : Nat, p.1 = Int.ofNat n ∧ k ≤ n ∧
        l[n - k]? = some v ∧ ∀ j, j < n - k → l[j]? ≠ some v := by
  intro l
  induction l with
  | nil => intro k p v hp; simp [enumFrom] at hp
  | cons a t ih =>
    intro k p v hp
    rw [enumFrom] at hp
    by_cases hav : a = v
    · rw [List.find?_cons_of_pos _ (by simpa using hav)] at hp
      cases hp
      refine ⟨hav, k, rfl, Nat.le_refl k, ?_, ?_⟩
      · simp [hav]
      · intro j hj
        omega
    · rw [List.find?_cons_of_neg _ (by simpa using hav)] at hp
      obtain ⟨hpv, n, hp1, hkn, hget, hfirst⟩ := ih (k + 1) p v hp
      refine ⟨hpv, n, hp1, Nat.le_of_succ_le hkn, ?_, ?_⟩
      · have hnk : n - k = (n - (k + 1)) + 1 := by omega
        rw [hnk, List.getElem?_cons_succ]
        exact hget
      · intro j hj
        cases j with
        | zero =>
          rw [List.getElem?_cons_zero]
          intro hc
          exact hav (Option.some.inj hc)
        | succ j =>
          rw [List.getElem?_cons_succ]
          exact hfirst j (by omega)

/-- The movie key tuple of a flattened row: the columns the movies table
deduplicates on. -/
def movieKey (r : Row) : List Val :=
  [.str r.title, .int r.year, .rat r.rating, .str r.synopsis]

/-- The flattened table projected to the movie key columns, in row order. -/
def projKeys (ms : List RawMovie) : List (List Val) :=
  (flattenRows ms).map movieKey

/-- The index-labelled key rows that survive drop_duplicates. -/
def moviePairs (ms : List RawMovie) : List (Int × List Val) :=
  dedupByKey (fun p => p.2) (enumFrom 0 (projKeys ms))

/-- The movies table of a loader-produced frame, in closed form: the id
column holds the original index labels of the first occurrences. -/
theorem movies_table_eq (ms : List RawMovie) :
    movies_table (dfOfFlat ms) =
      .ok ⟨["id", "title", "year", "rating", "synopsis"],
        rangeInts (moviePairs ms).length,
        (moviePairs ms).map (fun p => Val.int p.1 :: p.2)⟩ := by
  have h2 : ((flattenRows ms).map Row.toVals).map
      (fun r => ["title", "year", "rating", "synopsis"].map (lookupCol flatCols r)) =
      projKeys ms := by
    rw [List.map_map]; rfl
  have h3 : (flattenRows ms).length = (projKeys ms).length := by
    rw [projKeys, List.length_map]
  have h1 : selectCols ["title", "year", "rating", "synopsis"] (dfOfFlat ms) =
      .ok ⟨["title", "year", "rating", "synopsis"],
        rangeInts (projKeys ms).length, projKeys ms⟩ := by
    have base : selectCols ["title", "year", "rating", "synopsis"] (dfOfFlat ms) =
        .ok ⟨["title", "year", "rating", "synopsis"],
          rangeInts (flattenRows ms).length,
          ((flattenRows ms).map Row.toVals).map
            (fun r => ["title", "year", "rating", "synopsis"].map (lookupCol flatCols r))⟩ :=
      rfl
    rw [base, h2, h3]
  have hd : drop_duplicates ⟨["title", "year", "rating", "synopsis"],
      rangeInts (projKeys ms).length, projKeys ms⟩ =
      ⟨["title", "year", "rating", "synopsis"],
        (moviePairs ms).map Prod.fst, (moviePairs ms).map Prod.snd⟩ := by
    simp only [drop_duplicates]
    rw [rangeInts_zip_eq_enumFrom (projKeys ms)]
    rfl
  have hr : reset_index ⟨["title", "year", "rating", "synopsis"],
      (moviePairs ms).map Prod.fst, (moviePairs ms).map Prod.snd⟩ =
      ⟨"index" :: ["title", "year", "rating", "synopsis"],
        rangeInts (moviePairs ms).length,
        (moviePairs ms).map (fun p => Val.int p.1 :: p.2)⟩ := by
    simp only [reset_index, List.length_map]
    rw [zip_map_fst_snd]
  unfold movies_table
  rw [h1]
  simp only [Except.map]
  rw [hd, hr]
  rfl

/-- A document whose first movie explodes into two rows, so the second
movie's first flattened row sits at position 2. -/
def twoMoviesDoc : List RawMovie :=
  [{ title := "A", year := some 1999, rating := 8, synopsis := "sa",
     director := "D1", genre := .list ["Drama", "Crime"], cast := .list ["X"] },
   { title := "B", year := some 2001, rating := 7, synopsis := "sb",
     director := "D2", genre := .list ["Action"], cast := .list ["Y"] }]

/-- Claim C5, counterexample: the two-movie document yields movie ids 0
and 2 (first-occurrence positions in the flattened table), not the
sequential 0 and 1. -/
theorem C5_counterexample_id_gap :
    (movies_table (dfOfFlat twoMoviesDoc)).map
      (fun t => t.rows.map (fun r => r.headD Val.null)) =
      .ok [Val.int 0, Val.int 2] ∧
    decide (([Val.int 0, Val.int 2] : List Val) = [Val.int 0, Val.int 1]) = false := by
  decide

/-- Claim C5, amended: the movies table deduplicates exactly on the
(title, year, rating, synopsis) tuple, every tuple of the flattened table
appears, and each row's id is the positional index in the flattened table
of the first row bearing that tuple; the ids are therefore distinct and
increasing but, whenever some movie explodes into more than one row, not
the sequence 0, 1, 2, .... -/
theorem C5_movies_table_first_occurrence_ids :
    ∀ ms : List RawMovie, ∃ t : DFrame,
      movies_table (dfOfFlat ms) = .ok t ∧
      (t.rows.map (fun r => r.drop 1)).Nodup ∧
      (∀ k ∈ projKeys ms, k ∈ t.rows.map (fun r => r.drop 1)) ∧
      (∀ row ∈ t.rows, ∃ i : Nat,
        row.head? = some (Val.int (Int.ofNat i)) ∧
        (projKeys ms)[i]? = some (row.drop 1) ∧
        ∀ j, j < i → (projKeys ms)[j]? ≠ some (row.drop 1)) := by
  intro ms
  refine ⟨_, movies_table_eq ms, ?_, ?_, ?_⟩
  case _ =>
    have hdrop : ((moviePairs ms).map (fun p => Val.int p.1 :: p.2)).map
        (fun r => r.drop 1) = (moviePairs ms).map (fun p => p.2) := by
      rw [List.map_map]; rfl
    show (((moviePairs ms).map (fun p => Val.int p.1 :: p.2)).map
      (fun r => r.drop 1)).Nodup
    rw [hdrop]
    exact (dedupByKeyAux_nodup (fun p : Int × List Val => p.2)
      (enumFrom 0 (projKeys ms)) []).1
  case _ =>
    intro k hk
    have hdrop : ((moviePairs ms).map (fun p => Val.int p.1 :: p.2)).map
        (fun r => r.drop 1) = (moviePairs ms).map (fun p => p.2) := by
      rw [List.map_map]; rfl
    show k ∈ ((moviePairs ms).map (fun p => Val.int p.1 :: p.2)).map
      (fun r => r.drop 1)
    rw [hdrop]
    obtain ⟨i, hi⟩ := mem_enumFrom (projKeys ms) 0 k hk
    obtain ⟨x, hx, hfx⟩ := dedupByKeyAux_complete (fun p : Int × List Val => p.2)
      (enumFrom 0 (projKeys ms)) [] (i, k) hi (by simp)
    exact List.mem_map.mpr ⟨x, hx, hfx⟩
  case _ =>
    intro row hrow
    rw [List.mem_map] at hrow
    obtain ⟨p, hp, rfl⟩ := hrow
    obtain ⟨hseen, hfind⟩ := dedupByKeyAux_first (fun p : Int × List Val => p.2)
      (enumFrom 0 (projKeys ms)) [] p hp
    obtain ⟨hpv, n, hp1, hkn, hget, hfirst⟩ :=
      enumFrom_find?_spec (projKeys ms) 0 p p.2 hfind
    refine ⟨n, ?_, ?_, ?_⟩
    · rw [List.head?_cons, hp1]
    · have : (Val.int p.1 :: p.2).drop 1 = p.2 := rfl
      rw [this]
      simpa using hget
    · intro j hj
      have : (Val.int p.1 :: p.2).drop 1 = p.2 := rfl
      rw [this]
      exact hfirst j (by omega)
